import Mathlib

/-!
Verification of the resilient TTS request-orchestration layer
(`src/lib/utils.js`, `src/api/health.js` and the TTS handler).

The JavaScript source is shallowly embedded: each stateful component
(session store, admission controller, circuit breaker, retry loop,
stream relay) becomes a pure Lean function over an explicit state,
with wall-clock reads (`Date.now()`) and random draws
(`Math.random()`) passed in as parameters.  JS numbers used as
millisecond timestamps and counters are modelled as `Nat` (the one
counter the code can drive below zero is modelled as `Int`).
JS string predicates (`String.includes`, `String.startsWith`) are
modelled over the lists of character codes, and the MD5 digest used
for session keys is implemented in full (RFC 1321) over `Nat` words
reduced mod 2^32.
-/

/-! ### String helpers: JS `String.includes` / `String.startsWith` -/

/-- Character codes of a string, used to model JS string scanning. -/
def strChars (s : String) : List Nat := s.data.map Char.toNat

/-- Boolean test that one code list is an initial segment of another. -/
def listPrefixB : List Nat → List Nat → Bool
  | [], _ => true
  | _ :: _, [] => false
  | a :: as, b :: bs => a == b && listPrefixB as bs

/-- Boolean test that `needle` occurs contiguously inside the second list. -/
def listInfixB (needle : List Nat) : List Nat → Bool
  | [] => listPrefixB needle []
  | b :: bs => listPrefixB needle (b :: bs) || listInfixB needle bs

/-- JS `hay.includes(needle)`. -/
def strIncludes (hay needle : String) : Bool := listInfixB (strChars needle) (strChars hay)

/-- JS `hay.startsWith(needle)`. -/
def strStarts (hay needle : String) : Bool := listPrefixB (strChars needle) (strChars hay)

/-! ### Assoc-list model of a JS `Map` and of a JS `Set`

`activeSessions` and `ConcurrencyManager.activeRequests` are JS `Map`s
(insertion-ordered, keys unique); each value of the latter is a JS
`Set` of request ids.  They are modelled as association lists /
duplicate-free lists with the same operations. -/

/-- JS `map.get(k)` (`none` models `undefined`). -/
def mapGet {α : Type} (m : List (String × α)) (k : String) : Option α :=
  (m.find? (fun p => p.1 == k)).map (·.2)

/-- JS `map.set(k, v)`: replace in place when the key exists (JS `Map`
keys are unique, so the first occurrence is the only one), else append. -/
def mapSet {α : Type} : List (String × α) → String → α → List (String × α)
  | [], k, v => [(k, v)]
  | p :: rest, k, v => if p.1 == k then (k, v) :: rest else p :: mapSet rest k v

/-- JS `map.delete(k)`. -/
def mapDelete {α : Type} (m : List (String × α)) (k : String) : List (String × α) :=
  m.filter (fun p => p.1 != k)

/-- JS `set.add(x)` (no duplicate inserted). -/
def setAdd (s : List String) (x : String) : List String :=
  if s.contains x then s else s ++ [x]

/-- JS `set.delete(x)`. -/
def setDelete (s : List String) (x : String) : List String :=
  s.filter (fun y => y != x)

/-! ### MD5 (RFC 1321), as used by `generateSessionId` via node `crypto`

32-bit machine words are `Nat`s reduced mod `2^32`. -/

/-- Reduce mod 2^32. -/
def m32 (x : Nat) : Nat := x % 4294967296

/-- Left-rotate a 32-bit word by `s` bits. -/
def rotl32 (x s : Nat) : Nat :=
  ((x % 2 ^ (32 - s)) * 2 ^ s) + (x / 2 ^ (32 - s))

/-- MD5 sine-derived constant table. -/
def md5K : List Nat :=
  [0xd76aa478, 0xe8c7b756, 0x242070db, 0xc1bdceee,
   0xf57c0faf, 0x4787c62a, 0xa8304613, 0xfd469501,
   0x698098d8, 0x8b44f7af, 0xffff5bb1, 0x895cd7be,
   0x6b901122, 0xfd987193, 0xa679438e, 0x49b40821,
   0xf61e2562, 0xc040b340, 0x265e5a51, 0xe9b6c7aa,
   0xd62f105d, 0x02441453, 0xd8a1e681, 0xe7d3fbc8,
   0x21e1cde6, 0xc33707d6, 0xf4d50d87, 0x455a14ed,
   0xa9e3e905, 0xfcefa3f8, 0x676f02d9, 0x8d2a4c8a,
   0xfffa3942, 0x8771f681, 0x6d9d6122, 0xfde5380c,
   0xa4beea44, 0x4bdecfa9, 0xf6bb4b60, 0xbebfbc70,
   0x289b7ec6, 0xeaa127fa, 0xd4ef3085, 0x04881d05,
   0xd9d4d039, 0xe6db99e5, 0x1fa27cf8, 0xc4ac5665,
   0xf4292244, 0x432aff97, 0xab9423a7, 0xfc93a039,
   0x655b59c3, 0x8f0ccc92, 0xffeff47d, 0x85845dd1,
   0x6fa87e4f, 0xfe2ce6e0, 0xa3014314, 0x4e0811a1,
   0xf7537e82, 0xbd3af235, 0x2ad7d2bb, 0xeb86d391]

/-- MD5 per-round left-rotation amounts. -/
def md5S : List Nat :=
  [7, 12, 17, 22, 7, 12, 17, 22, 7, 12, 17, 22, 7, 12, 17, 22,
   5, 9, 14, 20, 5, 9, 14, 20, 5, 9, 14, 20, 5, 9, 14, 20,
   4, 11, 16, 23, 4, 11, 16, 23, 4, 11, 16, 23, 4, 11, 16, 23,
   6, 10, 15, 21, 6, 10, 15, 21, 6, 10, 15, 21, 6, 10, 15, 21]

/-- MD5 round function F. -/
def md5F (b c d : Nat) : Nat := (b &&& c) ||| ((b ^^^ 0xFFFFFFFF) &&& d)

/-- MD5 round function G. -/
def md5G (b c d : Nat) : Nat := (d &&& b) ||| ((d ^^^ 0xFFFFFFFF) &&& c)

/-- MD5 round function H. -/
def md5H (b c d : Nat) : Nat := b ^^^ c ^^^ d

/-- MD5 round function I. -/
def md5I (b c d : Nat) : Nat := c ^^^ (b ||| (d ^^^ 0xFFFFFFFF))

/-- MD5 message-word index for round `i`. -/
def md5g (i : Nat) : Nat :=
  if i < 16 then i
  else if i < 32 then (5 * i + 1) % 16
  else if i < 48 then (3 * i + 5) % 16
  else (7 * i) % 16

/-- One MD5 round over the running `(a, b, c, d)` state. -/
def md5Round (M : List Nat) (st : Nat × Nat × Nat × Nat) (i : Nat) : Nat × Nat × Nat × Nat :=
  let (a, b, c, d) := st
  let f :=
    if i < 16 then md5F b c d
    else if i < 32 then md5G b c d
    else if i < 48 then md5H b c d
    else md5I b c d
  let tmp := m32 (f + a + md5K.getD i 0 + M.getD (md5g i) 0)
  (d, m32 (b + rotl32 tmp (md5S.getD i 0)), b, c)

/-- Process one 512-bit chunk (16 little-endian words). -/
def md5Chunk (st : Nat × Nat × Nat × Nat) (M : List Nat) : Nat × Nat × Nat × Nat :=
  let (a0, b0, c0, d0) := st
  let (a, b, c, d) := (List.range 64).foldl (md5Round M) st
  (m32 (a0 + a), m32 (b0 + b), m32 (c0 + c), m32 (d0 + d))

/-- `count` little-endian bytes of `n`. -/
def leBytes (n count : Nat) : List Nat :=
  (List.range count).map (fun i => (n / 2 ^ (8 * i)) % 256)

/-- MD5 padding: `0x80`, zeros to 56 mod 64, then the 64-bit bit length. -/
def md5Pad (msg : List Nat) : List Nat :=
  msg ++ [0x80] ++ List.replicate ((120 - (msg.length + 1) % 64) % 64) 0
      ++ leBytes ((msg.length * 8) % 2 ^ 64) 8

/-- Split a 64-byte chunk into 16 little-endian 32-bit words. -/
def bytesToWords (chunk : List Nat) : List Nat :=
  (List.range 16).map (fun j =>
    chunk.getD (4 * j) 0 + chunk.getD (4 * j + 1) 0 * 256
      + chunk.getD (4 * j + 2) 0 * 65536 + chunk.getD (4 * j + 3) 0 * 16777216)

/-- Split a byte list into 64-byte chunks (fuel-structured so the
kernel can evaluate it). -/
def toChunksGo : Nat → List Nat → List (List Nat)
  | 0, _ => []
  | fuel + 1, l => if l.length = 0 then [] else l.take 64 :: toChunksGo fuel (l.drop 64)

/-- Split a byte list into 64-byte chunks. -/
def toChunks (l : List Nat) : List (List Nat) := toChunksGo l.length l

/-- The 16 digest bytes of a message. -/
def md5Digest (msg : List Nat) : List Nat :=
  let cs := toChunks (md5Pad msg)
  let (a, b, c, d) := cs.foldl (fun st ch => md5Chunk st (bytesToWords ch))
    (0x67452301, 0xefcdab89, 0x98badcfe, 0x10325476)
  leBytes a 4 ++ leBytes b 4 ++ leBytes c 4 ++ leBytes d 4

/-- Lower-case hex digit. -/
def hexChar (n : Nat) : Char := if n < 10 then Char.ofNat (48 + n) else Char.ofNat (87 + n)

/-- Two-digit lower-case hex of a byte. -/
def byteToHexStr (b : Nat) : String := String.mk [hexChar (b / 16), hexChar (b % 16)]

/-- UTF-8 encoding of one code point. -/
def utf8Encode (c : Nat) : List Nat :=
  if c < 0x80 then [c]
  else if c < 0x800 then [0xC0 + c / 64, 0x80 + c % 64]
  else if c < 0x10000 then [0xE0 + c / 4096, 0x80 + (c / 64) % 64, 0x80 + c % 64]
  else [0xF0 + c / 262144, 0x80 + (c / 4096) % 64, 0x80 + (c / 64) % 64, 0x80 + c % 64]

/-- UTF-8 bytes of a string (node `hash.update(s)` uses utf8). -/
def stringToBytes (s : String) : List Nat := (s.data.map (fun c => utf8Encode c.toNat)).flatten

/-- `crypto.createHash('md5').update(s).digest('hex')`. -/
def md5Hex (s : String) : String := String.join ((md5Digest (stringToBytes s)).map byteToHexStr)

/-! ### Session store (`BROWSER_PROFILES`, `activeSessions`,
`getBrowserProfileForSession`, `generateSessionId`; utils.js lines 20-205) -/

/-- One browser profile of the pool.  The outbound header bundle of the
source is an opaque payload never inspected by the control flow and is
not reproduced here; `id` and `name` identify the profile. -/
structure BrowserProfile where
  id : String
  name : String
deriving DecidableEq, Repr

/-- The fixed five-profile pool (utils.js lines 20-106). -/
def BROWSER_PROFILES : List BrowserProfile :=
  [⟨"chrome_125_windows", "Chrome 125 on Windows 11"⟩,
   ⟨"chrome_124_windows", "Chrome 124 on Windows 10"⟩,
   ⟨"firefox_126_windows", "Firefox 126 on Windows 11"⟩,
   ⟨"safari_17_macos", "Safari 17 on macOS Sonoma"⟩,
   ⟨"edge_125_windows", "Microsoft Edge 125 on Windows 11"⟩]

/-- `BEHAVIOR_CONFIG.sessionDuration` (5 minutes, in ms). -/
def sessionDuration : Nat := 300000

/-- An entry of the `activeSessions` map. -/
structure SessionEntry where
  profile : BrowserProfile
  startTime : Nat
  requestCount : Nat
deriving DecidableEq, Repr

/-- The `activeSessions` map. -/
abbrev Sessions := List (String × SessionEntry)

/-- `getBrowserProfileForSession(sessionId)` (utils.js lines 125-158).
`now` is the `Date.now()` read; `randomIndex` is the draw
`Math.floor(Math.random() * BROWSER_PROFILES.length)` that the
new-profile path would make.  Returns the profile and the updated map. -/
def getBrowserProfileForSession (sessions : Sessions) (sessionId : String) (now : Nat)
    (randomIndex : Fin BROWSER_PROFILES.length) : BrowserProfile × Sessions :=
  match mapGet sessions sessionId with
  | some session =>
    if now - session.startTime < sessionDuration then
      (session.profile, sessions)
    else
      let sessions := mapDelete sessions sessionId
      let selectedProfile := BROWSER_PROFILES.get randomIndex
      (selectedProfile, mapSet sessions sessionId ⟨selectedProfile, now, 0⟩)
  | none =>
    let selectedProfile := BROWSER_PROFILES.get randomIndex
    (selectedProfile, mapSet sessions sessionId ⟨selectedProfile, now, 0⟩)

/-- `generateSessionId(voiceId, requestBody)` (utils.js lines 195-205):
the voice id, an underscore, and the first 8 hex characters of the MD5
of the body's first 100 characters. -/
def generateSessionId (voiceId requestBody : String) : String :=
  let bodyHash := (md5Hex (requestBody.take 100)).take 8
  voiceId ++ "_" ++ bodyHash

/-! ### Admission controller (`ConcurrencyManager`, utils.js lines 211-327) -/

/-- The `stats` record of the concurrency manager.  `activeRequests` is
decremented by `finishRequest` without a guard, so it can go below
zero and is modelled as `Int`. -/
structure ConcStats where
  totalRequests : Nat
  activeRequests : Int
  rejectedRequests : Nat
deriving DecidableEq, Repr

/-- The `ConcurrencyManager` state. -/
structure ConcurrencyManager where
  activeRequests : List (String × List String)
  maxConcurrentPerVoice : Nat
  requestCounter : Nat
  concurrencyEnabled : Bool
  stats : ConcStats
deriving DecidableEq, Repr

/-- The constructor (utils.js lines 212-230): `options.maxConcurrentPerVoice
|| 3` maps the falsy 0 to the default 3. -/
def mkConcurrencyManager (maxConcurrentPerVoiceOpt : Nat) (concurrencyEnabled : Bool) :
    ConcurrencyManager :=
  { activeRequests := []
    maxConcurrentPerVoice := if maxConcurrentPerVoiceOpt = 0 then 3 else maxConcurrentPerVoiceOpt
    requestCounter := 0
    concurrencyEnabled := concurrencyEnabled
    stats := ⟨0, 0, 0⟩ }

/-- `this.activeRequests.get(voiceId)?.size || 0`. -/
def ConcurrencyManager.activeCountFor (cm : ConcurrencyManager) (voiceId : String) : Nat :=
  ((mapGet cm.activeRequests voiceId).map List.length).getD 0

/-- `canProcessRequest(voiceId)` (utils.js lines 236-252).  Returns the
admission verdict and the updated manager (a rejection bumps the
rejection counter). -/
def ConcurrencyManager.canProcessRequest (cm : ConcurrencyManager) (voiceId : String) :
    Bool × ConcurrencyManager :=
  if !cm.concurrencyEnabled then
    (true, cm)
  else
    let activeCount := cm.activeCountFor voiceId
    let canProcess := activeCount < cm.maxConcurrentPerVoice
    if !canProcess then
      (false, { cm with stats := { cm.stats with rejectedRequests := cm.stats.rejectedRequests + 1 } })
    else
      (canProcess, cm)

/-- `startRequest(voiceId, requestId)` (utils.js lines 254-272). -/
def ConcurrencyManager.startRequest (cm : ConcurrencyManager) (voiceId requestId : String) :
    ConcurrencyManager :=
  let s := (mapGet cm.activeRequests voiceId).getD []
  { cm with
    activeRequests := mapSet cm.activeRequests voiceId (setAdd s requestId)
    stats := { cm.stats with
      totalRequests := cm.stats.totalRequests + 1
      activeRequests := cm.stats.activeRequests + 1 } }

/-- `finishRequest(voiceId, requestId)` (utils.js lines 274-293): when
the voice key exists, remove the request id from its set, decrement
`stats.activeRequests` (unconditionally), and delete the key once its
set is empty; otherwise do nothing. -/
def ConcurrencyManager.finishRequest (cm : ConcurrencyManager) (voiceId requestId : String) :
    ConcurrencyManager :=
  match mapGet cm.activeRequests voiceId with
  | none => cm
  | some s =>
    let s := setDelete s requestId
    let m :=
      if s.length = 0 then mapDelete cm.activeRequests voiceId
      else mapSet cm.activeRequests voiceId s
    { cm with
      activeRequests := m
      stats := { cm.stats with activeRequests := cm.stats.activeRequests - 1 } }

/-! ### Circuit breaker (`CircuitBreaker`, utils.js lines 336-448) -/

/-- The three breaker states. -/
inductive CBState
  | Closed
  | Open
  | HalfOpen
deriving DecidableEq, Repr

/-- The breaker statistics record. -/
structure CBStats where
  totalRequests : Nat
  totalFailures : Nat
  totalSuccesses : Nat
  circuitOpenCount : Nat
  lastStateChange : Nat
deriving DecidableEq, Repr

/-- The `CircuitBreaker` state. -/
structure CircuitBreaker where
  failureThreshold : Nat
  resetTimeout : Nat
  monitoringPeriod : Nat
  state : CBState
  failures : Nat
  lastFailureTime : Option Nat
  successCount : Nat
  requestCount : Nat
  lastRequestTime : Option Nat
  stats : CBStats
deriving DecidableEq, Repr

/-- The constructor (utils.js lines 337-357): `options.x || default`
maps the falsy 0 to the default.  `now` is `Date.now()` at
construction (for `stats.lastStateChange`). -/
def mkCircuitBreaker (failureThresholdOpt resetTimeoutOpt monitoringPeriodOpt now : Nat) :
    CircuitBreaker :=
  { failureThreshold := if failureThresholdOpt = 0 then 3 else failureThresholdOpt
    resetTimeout := if resetTimeoutOpt = 0 then 30000 else resetTimeoutOpt
    monitoringPeriod := if monitoringPeriodOpt = 0 then 10000 else monitoringPeriodOpt
    state := .Closed
    failures := 0
    lastFailureTime := none
    successCount := 0
    requestCount := 0
    lastRequestTime := none
    stats := ⟨0, 0, 0, 0, now⟩ }

/-- What one `execute(operation)` call produced. -/
inductive ExecResult
  | breakerOpen (remainingSecs : Nat)
  | ok
  | errored
deriving DecidableEq, Repr

/-- Result of one `execute` call: the outcome, how many times the
wrapped operation was invoked (0 or 1), the breaker state at the
moment of invocation (if any), and the breaker after the call. -/
structure ExecStep where
  result : ExecResult
  opInvocations : Nat
  invokedInState : Option CBState
  cb : CircuitBreaker
deriving DecidableEq, Repr

/-- The part of `execute` after the OPEN short-circuit check: invoke
the operation and do the success/failure bookkeeping (utils.js lines
377-408).  `nowEnd` is `Date.now()` when the operation settles;
`opSucceeds` tells whether `await operation()` returned or threw. -/
def cbProceed (cb : CircuitBreaker) (nowEnd : Nat) (opSucceeds : Bool) : ExecStep :=
  if opSucceeds then
    let cb := { cb with stats := { cb.stats with totalSuccesses := cb.stats.totalSuccesses + 1 } }
    if cb.state = .HalfOpen then
      let sc := cb.successCount + 1
      if 2 ≤ sc then
        ⟨.ok, 1, some .HalfOpen,
          { cb with successCount := sc, state := .Closed, failures := 0,
                    stats := { cb.stats with lastStateChange := nowEnd } }⟩
      else
        ⟨.ok, 1, some .HalfOpen, { cb with successCount := sc }⟩
    else
      ⟨.ok, 1, some cb.state, cb⟩
  else
    let f := cb.failures + 1
    let cb1 := { cb with failures := f, lastFailureTime := some nowEnd,
                         stats := { cb.stats with totalFailures := cb.stats.totalFailures + 1 } }
    if cb1.failureThreshold ≤ f ∧ cb1.state ≠ .Open then
      ⟨.errored, 1, some cb.state,
        { cb1 with state := .Open,
                   stats := { cb1.stats with
                     circuitOpenCount := cb1.stats.circuitOpenCount + 1
                     lastStateChange := nowEnd } }⟩
    else
      ⟨.errored, 1, some cb.state, cb1⟩

/-- `execute(operation)` (utils.js lines 359-409).  `now` is
`Date.now()` at entry.  While OPEN: if strictly more than
`resetTimeout` ms passed since the last failure, move to HALF_OPEN and
proceed; otherwise throw the breaker-open error carrying
`Math.ceil` of the remaining seconds, without invoking the operation
(`lastFailureTime.getD 0` mirrors JS coercing `null` to 0). -/
def CircuitBreaker.execute (cb0 : CircuitBreaker) (now nowEnd : Nat) (opSucceeds : Bool) :
    ExecStep :=
  let cb := { cb0 with
    requestCount := cb0.requestCount + 1
    lastRequestTime := some now
    stats := { cb0.stats with totalRequests := cb0.stats.totalRequests + 1 } }
  if cb.state = .Open then
    if cb.resetTimeout < now - (cb.lastFailureTime.getD 0) then
      cbProceed { cb with state := .HalfOpen, successCount := 0,
                          stats := { cb.stats with lastStateChange := now } }
        nowEnd opSucceeds
    else
      let remaining := (cb.resetTimeout - (now - cb.lastFailureTime.getD 0) + 999) / 1000
      ⟨.breakerOpen remaining, 0, none, cb⟩
  else
    cbProceed cb nowEnd opSucceeds

/-- `reset()` (utils.js lines 436-442). -/
def CircuitBreaker.reset (cb : CircuitBreaker) (now : Nat) : CircuitBreaker :=
  { cb with state := .Closed, failures := 0, successCount := 0, lastFailureTime := none,
            stats := { cb.stats with lastStateChange := now } }

/-- `isHealthy()` (utils.js lines 445-447). -/
def CircuitBreaker.isHealthy (cb : CircuitBreaker) : Bool :=
  cb.state = .Closed || cb.state = .HalfOpen

/-- Breaker states reachable from a fresh construction through
`execute` and `reset` calls. -/
inductive CBReachable : CircuitBreaker → Prop
  | init (ft rt mp now : Nat) : CBReachable (mkCircuitBreaker ft rt mp now)
  | exec {cb : CircuitBreaker} (now nowEnd : Nat) (opSucceeds : Bool) :
      CBReachable cb → CBReachable (cb.execute now nowEnd opSucceeds).cb
  | reset {cb : CircuitBreaker} (now : Nat) :
      CBReachable cb → CBReachable (cb.reset now)

/-- The breaker's structural invariant: the configured threshold is
positive, and in OPEN or HALF_OPEN the failure counter has reached the
threshold (it is never reset on the way to those states). -/
def CBInv (cb : CircuitBreaker) : Prop :=
  1 ≤ cb.failureThreshold ∧
  ((cb.state = .Open ∨ cb.state = .HalfOpen) → cb.failureThreshold ≤ cb.failures)

/-! ### Retry orchestrator (`callElevenLabsAPI`, utils.js lines 991-1178) -/

/-- Outcome of one `attemptElevenLabsAPICall`: a response with a 2xx
status (`ok`), or a throw whose message is `msg` (either the
`HTTP_ERROR_<status>: <body>` message built at utils.js line 982 or a
network-layer error message). -/
inductive AttemptOutcome
  | ok
  | err (msg : String)
deriving DecidableEq, Repr

/-- What `callElevenLabsAPI` produced: whether it returned a response,
how many attempts were made, and the last error (`throw lastError`
when `ok = false`). -/
structure CallResult where
  ok : Bool
  attempts : Nat
  lastError : Option String
deriving DecidableEq, Repr

/-- The error-classification disjunction of utils.js lines 1060-1072. -/
def isRetryableError (msg : String) : Bool :=
  strIncludes msg "ECONNREFUSED" || strIncludes msg "ENOTFOUND" ||
  strIncludes msg "ECONNRESET" || strIncludes msg "timeout" ||
  strIncludes msg "ETIMEDOUT" ||
  strIncludes msg "HTTP_ERROR_429" || strIncludes msg "HTTP_ERROR_401" ||
  strIncludes msg "HTTP_ERROR_403" || strStarts msg "HTTP_ERROR_"

/-- `getMaxRetriesForHttpError(error)` (utils.js lines 1007-1016);
`maxRetries` is the enclosing scope's rotation-dependent cap. -/
def getMaxRetriesForHttpError (maxRetries : Nat) (msg : String) : Nat :=
  if strIncludes msg "HTTP_ERROR_429" || strIncludes msg "HTTP_ERROR_401" ||
     strIncludes msg "HTTP_ERROR_403" then 2
  else if strStarts msg "HTTP_ERROR_" then 1
  else maxRetries

/-- The retry loop body (utils.js lines 1036-1152).  `outcomes i` is
the result of attempt number `i`; `fuel` is the number of loop
iterations left; `retryCount` and `lastError` are the loop variables. -/
def retryLoopGo (enableDynamicRegions : Bool) (maxRetries : Nat)
    (outcomes : Nat → AttemptOutcome) : Nat → Nat → Option String → CallResult
  | 0, retryCount, lastError => ⟨false, retryCount, lastError⟩
  | fuel + 1, retryCount, _last =>
    match outcomes retryCount with
    | .ok => ⟨true, retryCount + 1, none⟩
    | .err msg =>
      let actualMaxRetries :=
        if strStarts msg "HTTP_ERROR_" then getMaxRetriesForHttpError maxRetries msg
        else maxRetries
      if !enableDynamicRegions || !isRetryableError msg ||
         retryCount == actualMaxRetries - 1 then
        ⟨false, retryCount + 1, some msg⟩
      else
        retryLoopGo enableDynamicRegions maxRetries outcomes fuel (retryCount + 1) (some msg)

/-- The attempt/retry behaviour of `callElevenLabsAPI` (utils.js lines
1002-1178): `maxRetries` is 3 when region rotation is enabled, else 1;
the loop runs attempts `0 .. maxRetries-1` and on exhaustion the last
error is rethrown. -/
def callElevenLabsAPIModel (enableDynamicRegions : Bool) (outcomes : Nat → AttemptOutcome) :
    CallResult :=
  let maxRetries := if enableDynamicRegions then 3 else 1
  retryLoopGo enableDynamicRegions maxRetries outcomes maxRetries 0 none

/-! ### Handler composition (`robustTtsHandler` step 7, tts.js):
`elevenLabsCircuitBreaker.execute(async () => callElevenLabsAPI(...))` -/

/-- The breaker-wrapped API call of the TTS handler: ONE
`execute` call whose operation is the whole retry loop.  Returns the
breaker step, the breaker after the call, and how many upstream
attempts were made (0 when the breaker short-circuited). -/
def robustTtsCall (cb : CircuitBreaker) (now nowEnd : Nat) (enableDynamicRegions : Bool)
    (outcomes : Nat → AttemptOutcome) : ExecStep × Nat :=
  let callRes := callElevenLabsAPIModel enableDynamicRegions outcomes
  let step := cb.execute now nowEnd callRes.ok
  (step, if step.opInvocations = 0 then 0 else callRes.attempts)

/-! ### Stream relay (`robustStreamResponse`, utils.js lines 783-902) -/

/-- How the relay promise settled (first settlement wins). -/
inductive StreamSettle
  | resolvedTrue
  | rejectedTimeout
  | rejectedBodyError
  | rejectedResError
  | rejectedPipeError
deriving DecidableEq, Repr

/-- The relay's runtime state: the `streamState` flags of the source
plus the timer, the destroyed flags of the two streams, and the
promise settlement. -/
structure RelayState where
  started : Bool
  finished : Bool
  errored : Bool
  aborted : Bool
  startTime : Nat
  timeoutAt : Nat
  timeoutActive : Bool
  bodyDestroyed : Bool
  resDestroyed : Bool
  settled : Option StreamSettle
deriving DecidableEq, Repr

/-- The fixed relay timeout (utils.js line 824: `setTimeout(..., 30000)`). -/
def streamTimeoutMs : Nat := 30000

/-- Relay state right after the promise executor ran: flags clear,
timer armed to fire `streamTimeoutMs` after `startTime`. -/
def initRelayState (startTime : Nat) : RelayState :=
  ⟨false, false, false, false, startTime, startTime + streamTimeoutMs, true, false, false, none⟩

/-- `resolve`/`reject`: only the first settlement of the promise counts. -/
def settleWith (s : RelayState) (o : StreamSettle) : RelayState :=
  match s.settled with
  | some _ => s
  | none => { s with settled := some o }

/-- The observable events of one relay invocation. -/
inductive StreamEvent
  | timeoutFire
  | bodyData
  | bodyEnd
  | bodyError
  | resError
  | resClose
deriving DecidableEq, Repr

/-- One event handler dispatch (utils.js lines 817-889).  A
`timeoutFire` is delivered only while the timer is armed (handlers
that ran `clearTimeout` disarm it; the timer is one-shot). -/
def streamStep (s : RelayState) (e : StreamEvent) : RelayState :=
  match e with
  | .timeoutFire =>
    if s.timeoutActive then
      let s := { s with timeoutActive := false }
      if !s.finished && !s.errored then
        settleWith { s with aborted := true, bodyDestroyed := true } .rejectedTimeout
      else s
    else s
  | .bodyData =>
    if !s.started then { s with started := true } else s
  | .bodyEnd =>
    let s := { s with timeoutActive := false }
    if !s.errored && !s.aborted then
      settleWith { s with finished := true } .resolvedTrue
    else s
  | .bodyError =>
    let s := { s with timeoutActive := false, errored := true }
    let s := if s.started && !s.resDestroyed then { s with resDestroyed := true } else s
    settleWith s .rejectedBodyError
  | .resError =>
    let s := { s with timeoutActive := false, errored := true }
    let s := if !s.bodyDestroyed then { s with bodyDestroyed := true } else s
    settleWith s .rejectedResError
  | .resClose =>
    let s := { s with timeoutActive := false }
    if !s.finished then
      (if !s.bodyDestroyed then { s with bodyDestroyed := true } else s)
    else s

/-- What a `robustStreamResponse` invocation came to. -/
inductive RelayResult
  | setupFailedReturn
  | promise (final : RelayState)
deriving DecidableEq, Repr

/-- `robustStreamResponse(elevenLabsResponse, res)` (utils.js lines
783-902).  When `res.headersSent` already holds at entry, the
pre-check throws, the catch sees `started = false` but
`headersSent = true`, so no error response is written and the function
returns `false` (`setupFailedReturn`); nothing is written to the sink
(second component `false`).  Otherwise the headers are written
(second component `true`) and the returned promise settles according
to the event trace. -/
def robustStreamResponse (headersSent : Bool) (startTime : Nat) (events : List StreamEvent) :
    RelayResult × Bool :=
  if headersSent then
    (.setupFailedReturn, false)
  else
    (.promise (events.foldl streamStep (initRelayState startTime)), true)

/-! ### Helper lemmas about the JS `Map` model -/

theorem mapGet_cons {α : Type} (p : String × α) (m : List (String × α)) (k : String) :
    mapGet (p :: m) k = if p.1 == k then some p.2 else mapGet m k := by
  by_cases h : p.1 == k <;> simp [mapGet, List.find?, h]

theorem mapGet_mapSet_same {α : Type} (m : List (String × α)) (k : String) (v : α) :
    mapGet (mapSet m k v) k = some v := by
  induction m with
  | nil => simp [mapSet, mapGet, List.find?]
  | cons p rest ih =>
    by_cases h : p.1 == k
    · simp [mapSet, h, mapGet_cons]
    · simp [mapSet, h, mapGet_cons, ih]

theorem mapGet_mapDelete_same {α : Type} (m : List (String × α)) (k : String) :
    mapGet (mapDelete m k) k = none := by
  induction m with
  | nil => simp [mapDelete, mapGet, List.find?]
  | cons p rest ih =>
    simp only [mapDelete] at ih ⊢
    by_cases h : p.1 == k
    · simpa [List.filter_cons, h, bne] using ih
    · simpa [List.filter_cons, h, bne, mapGet_cons] using ih

theorem mapSet_mapSet_same {α : Type} (m : List (String × α)) (k : String) (v w : α) :
    mapSet (mapSet m k v) k w = mapSet m k w := by
  induction m with
  | nil => simp [mapSet]
  | cons p rest ih =>
    by_cases h : p.1 == k
    · simp [mapSet, h]
    · simp [mapSet, h, ih]

/-- C3 (confirmed): when admission control is disabled,
`canProcessRequest` returns `true` for every key; when enabled, it
returns `true` exactly when the current in-flight count for the key is
strictly below `maxConcurrentPerVoice` (so with the maximum at 3 and 3
outstanding a 4th admission fails, and after any one release a further
admission succeeds). -/
theorem C3_admission_check_iff (cm : ConcurrencyManager) (voiceId : String) :
    (cm.concurrencyEnabled = false → (cm.canProcessRequest voiceId).1 = true) ∧
    (cm.concurrencyEnabled = true →
      ((cm.canProcessRequest voiceId).1 = true ↔
        cm.activeCountFor voiceId < cm.maxConcurrentPerVoice)) := by
  constructor
  · intro h
    simp [ConcurrencyManager.canProcessRequest, h]
  · intro h
    simp only [ConcurrencyManager.canProcessRequest, h]
    by_cases hlt : cm.activeCountFor voiceId < cm.maxConcurrentPerVoice
    · simp [hlt]
    · simp [hlt]

/-- C3 witness: a disabled manager admits; an enabled manager with 3
of 3 requests in flight for `voiceA` rejects, and admits again after
one release. -/
theorem C3_witness :
    ((mkConcurrencyManager 3 false).concurrencyEnabled = false ∧
      ((mkConcurrencyManager 3 false).canProcessRequest "voiceA").1 = true) ∧
    ((((mkConcurrencyManager 3 true).startRequest "voiceA" "req_1").startRequest "voiceA"
        "req_2").startRequest "voiceA" "req_3").concurrencyEnabled = true ∧
    ¬(((((mkConcurrencyManager 3 true).startRequest "voiceA" "req_1").startRequest "voiceA"
        "req_2").startRequest "voiceA" "req_3").canProcessRequest "voiceA").1 = true ∧
    ((((((mkConcurrencyManager 3 true).startRequest "voiceA" "req_1").startRequest "voiceA"
        "req_2").startRequest "voiceA" "req_3").finishRequest "voiceA"
        "req_2").canProcessRequest "voiceA").1 = true := by
  refine ⟨⟨rfl, (C3_admission_check_iff _ "voiceA").1 rfl⟩, rfl, ?_, ?_⟩
  · intro hc
    have h2 := ((C3_admission_check_iff _ "voiceA").2 rfl).mp hc
    revert h2
    decide
  · exact ((C3_admission_check_iff _ "voiceA").2 rfl).mpr (by decide)

/-- C9 (confirmed): a lookup strictly within `sessionDuration` of the
stored session's creation returns the stored profile and leaves the map
unchanged; a lookup with no session, or with `now - createdAt ≥
sessionDuration`, evicts the old session and stores and returns the
profile drawn from the fixed pool by the uniform random index. -/
theorem C9_session_identity_lifecycle :
    (∀ (sessions : Sessions) (sid : String) (now : Nat)
        (r : Fin BROWSER_PROFILES.length) (sess : SessionEntry),
        mapGet sessions sid = some sess →
        now - sess.startTime < sessionDuration →
        getBrowserProfileForSession sessions sid now r = (sess.profile, sessions)) ∧
    (∀ (sessions : Sessions) (sid : String) (now : Nat) (r : Fin BROWSER_PROFILES.length),
        mapGet sessions sid = none →
        getBrowserProfileForSession sessions sid now r =
          (BROWSER_PROFILES.get r, mapSet sessions sid ⟨BROWSER_PROFILES.get r, now, 0⟩)) ∧
    (∀ (sessions : Sessions) (sid : String) (now : Nat)
        (r : Fin BROWSER_PROFILES.length) (sess : SessionEntry),
        mapGet sessions sid = some sess →
        sessionDuration ≤ now - sess.startTime →
        getBrowserProfileForSession sessions sid now r =
          (BROWSER_PROFILES.get r,
            mapSet (mapDelete sessions sid) sid ⟨BROWSER_PROFILES.get r, now, 0⟩)) := by
  refine ⟨?_, ?_, ?_⟩
  · intro sessions sid now r sess hget hfresh
    simp [getBrowserProfileForSession, hget, hfresh]
  · intro sessions sid now r hget
    simp [getBrowserProfileForSession, hget]
  · intro sessions sid now r sess hget hstale
    simp [getBrowserProfileForSession, hget, Nat.not_lt.mpr hstale]

/-- C9 witness: concrete fresh, absent and expired lookups. -/
theorem C9_witness :
    (mapGet [("voiceA_x", (⟨⟨"safari_17_macos", "Safari 17 on macOS Sonoma"⟩, 100, 0⟩ : SessionEntry))] "voiceA_x"
        = some ⟨⟨"safari_17_macos", "Safari 17 on macOS Sonoma"⟩, 100, 0⟩ ∧
      200 - 100 < sessionDuration ∧
      getBrowserProfileForSession
        [("voiceA_x", ⟨⟨"safari_17_macos", "Safari 17 on macOS Sonoma"⟩, 100, 0⟩)] "voiceA_x" 200
        ⟨1, by decide⟩ =
        (⟨"safari_17_macos", "Safari 17 on macOS Sonoma"⟩,
          [("voiceA_x", ⟨⟨"safari_17_macos", "Safari 17 on macOS Sonoma"⟩, 100, 0⟩)])) ∧
    (mapGet ([] : Sessions) "voiceA_y" = none ∧
      getBrowserProfileForSession [] "voiceA_y" 50 ⟨1, by decide⟩ =
        (BROWSER_PROFILES.get ⟨1, by decide⟩,
          mapSet [] "voiceA_y" ⟨BROWSER_PROFILES.get ⟨1, by decide⟩, 50, 0⟩)) ∧
    (sessionDuration ≤ 300100 - 100 ∧
      getBrowserProfileForSession
        [("voiceA_x", ⟨⟨"safari_17_macos", "Safari 17 on macOS Sonoma"⟩, 100, 0⟩)] "voiceA_x"
        300100 ⟨0, by decide⟩ =
        (BROWSER_PROFILES.get ⟨0, by decide⟩,
          mapSet
            (mapDelete [("voiceA_x", ⟨⟨"safari_17_macos", "Safari 17 on macOS Sonoma"⟩, 100, 0⟩)]
              "voiceA_x")
            "voiceA_x" ⟨BROWSER_PROFILES.get ⟨0, by decide⟩, 300100, 0⟩)) := by
  refine ⟨⟨by decide, by decide, ?_⟩, ⟨by decide, ?_⟩, ⟨by decide, ?_⟩⟩
  · exact C9_session_identity_lifecycle.1
      [("voiceA_x", ⟨⟨"safari_17_macos", "Safari 17 on macOS Sonoma"⟩, 100, 0⟩)] "voiceA_x" 200
      ⟨1, by decide⟩ ⟨⟨"safari_17_macos", "Safari 17 on macOS Sonoma"⟩, 100, 0⟩
      (by decide) (by decide)
  · exact C9_session_identity_lifecycle.2.1 [] "voiceA_y" 50 ⟨1, by decide⟩ rfl
  · exact C9_session_identity_lifecycle.2.2
      [("voiceA_x", ⟨⟨"safari_17_macos", "Safari 17 on macOS Sonoma"⟩, 100, 0⟩)] "voiceA_x"
      300100 ⟨0, by decide⟩ ⟨⟨"safari_17_macos", "Safari 17 on macOS Sonoma"⟩, 100, 0⟩
      (by decide) (by decide)

/-- helper: a 429/401/403-class message is retryable. -/
theorem retryable_of_httpClass {msg : String}
    (h : (strIncludes msg "HTTP_ERROR_429" || strIncludes msg "HTTP_ERROR_401" ||
      strIncludes msg "HTTP_ERROR_403") = true) : isRetryableError msg = true := by
  simp only [isRetryableError, Bool.or_eq_true] at h ⊢
  tauto

/-- helper: a message starting with `HTTP_ERROR_` is retryable. -/
theorem retryable_of_startsHttp {msg : String} (h : strStarts msg "HTTP_ERROR_" = true) :
    isRetryableError msg = true := by
  simp [isRetryableError, h]

/-- helper: a network-class message is retryable. -/
theorem retryable_of_net {msg : String}
    (h : (strIncludes msg "ECONNREFUSED" || strIncludes msg "ENOTFOUND" ||
      strIncludes msg "ECONNRESET" || strIncludes msg "timeout" ||
      strIncludes msg "ETIMEDOUT") = true) : isRetryableError msg = true := by
  simp only [isRetryableError, Bool.or_eq_true] at h ⊢
  tauto

/-- C2 (confirmed): with region rotation disabled `callElevenLabsAPI`
makes exactly 1 attempt regardless of the error; with rotation enabled,
persistent HTTP 429/401/403 errors stop after 2 total attempts, another
HTTP error after 1 total attempt, and network-class errors
(ECONNREFUSED / ENOTFOUND / ECONNRESET / timeout / ETIMEDOUT) after 3
total attempts, in each case propagating the last error. -/
theorem C2_retry_policy
    (outcomes : Nat → AttemptOutcome) (m429 mOther mNet : Nat → String)
    (h429 : ∀ i, strStarts (m429 i) "HTTP_ERROR_" = true ∧
      (strIncludes (m429 i) "HTTP_ERROR_429" || strIncludes (m429 i) "HTTP_ERROR_401" ||
        strIncludes (m429 i) "HTTP_ERROR_403") = true)
    (hOther : strStarts (mOther 0) "HTTP_ERROR_" = true ∧
      (strIncludes (mOther 0) "HTTP_ERROR_429" || strIncludes (mOther 0) "HTTP_ERROR_401" ||
        strIncludes (mOther 0) "HTTP_ERROR_403") = false)
    (hNet : ∀ i, (strIncludes (mNet i) "ECONNREFUSED" || strIncludes (mNet i) "ENOTFOUND" ||
        strIncludes (mNet i) "ECONNRESET" || strIncludes (mNet i) "timeout" ||
        strIncludes (mNet i) "ETIMEDOUT") = true ∧
      strStarts (mNet i) "HTTP_ERROR_" = false) :
    (callElevenLabsAPIModel false outcomes).attempts = 1 ∧
    callElevenLabsAPIModel true (fun i => .err (m429 i)) = ⟨false, 2, some (m429 1)⟩ ∧
    callElevenLabsAPIModel true (fun i => .err (mOther i)) = ⟨false, 1, some (mOther 0)⟩ ∧
    callElevenLabsAPIModel true (fun i => .err (mNet i)) = ⟨false, 3, some (mNet 2)⟩ := by
  refine ⟨?_, ?_, ?_, ?_⟩
  · unfold callElevenLabsAPIModel retryLoopGo
    cases houtcome : outcomes 0 <;> simp [houtcome]
  · simp [callElevenLabsAPIModel, retryLoopGo, (h429 0).1, (h429 1).1,
      getMaxRetriesForHttpError, (h429 0).2, (h429 1).2,
      retryable_of_httpClass (h429 0).2, retryable_of_httpClass (h429 1).2]
  · simp [callElevenLabsAPIModel, retryLoopGo, hOther.1, hOther.2,
      getMaxRetriesForHttpError, retryable_of_startsHttp hOther.1]
  · simp [callElevenLabsAPIModel, retryLoopGo, (hNet 0).2, (hNet 1).2, (hNet 2).2,
      getMaxRetriesForHttpError,
      retryable_of_net (hNet 0).1, retryable_of_net (hNet 1).1, retryable_of_net (hNet 2).1]

/-- C2 witness: concrete 429-class, other-HTTP and network error
messages driven through the retry loop. -/
theorem C2_witness :
    (strStarts "HTTP_ERROR_429: quota_exceeded" "HTTP_ERROR_" = true ∧
      strIncludes "HTTP_ERROR_429: quota_exceeded" "HTTP_ERROR_429" = true) ∧
    strStarts "HTTP_ERROR_502: bad gateway" "HTTP_ERROR_" = true ∧
    strIncludes "connect ECONNREFUSED 1.2.3.4:443" "ECONNREFUSED" = true ∧
    (callElevenLabsAPIModel false (fun _ => .err "ECONNRESET")).attempts = 1 ∧
    callElevenLabsAPIModel true (fun _ => .err "HTTP_ERROR_429: quota_exceeded") =
      ⟨false, 2, some "HTTP_ERROR_429: quota_exceeded"⟩ ∧
    callElevenLabsAPIModel true (fun _ => .err "HTTP_ERROR_502: bad gateway") =
      ⟨false, 1, some "HTTP_ERROR_502: bad gateway"⟩ ∧
    callElevenLabsAPIModel true (fun _ => .err "connect ECONNREFUSED 1.2.3.4:443") =
      ⟨false, 3, some "connect ECONNREFUSED 1.2.3.4:443"⟩ := by
  have hA : strStarts "HTTP_ERROR_429: quota_exceeded" "HTTP_ERROR_" = true ∧
      (strIncludes "HTTP_ERROR_429: quota_exceeded" "HTTP_ERROR_429" ||
        strIncludes "HTTP_ERROR_429: quota_exceeded" "HTTP_ERROR_401" ||
        strIncludes "HTTP_ERROR_429: quota_exceeded" "HTTP_ERROR_403") = true :=
    ⟨by decide, by decide⟩
  have hN : (strIncludes "connect ECONNREFUSED 1.2.3.4:443" "ECONNREFUSED" ||
        strIncludes "connect ECONNREFUSED 1.2.3.4:443" "ENOTFOUND" ||
        strIncludes "connect ECONNREFUSED 1.2.3.4:443" "ECONNRESET" ||
        strIncludes "connect ECONNREFUSED 1.2.3.4:443" "timeout" ||
        strIncludes "connect ECONNREFUSED 1.2.3.4:443" "ETIMEDOUT") = true ∧
      strStarts "connect ECONNREFUSED 1.2.3.4:443" "HTTP_ERROR_" = false :=
    ⟨by decide, by decide⟩
  have H := C2_retry_policy (fun _ => .err "ECONNRESET")
    (fun _ => "HTTP_ERROR_429: quota_exceeded") (fun _ => "HTTP_ERROR_502: bad gateway")
    (fun _ => "connect ECONNREFUSED 1.2.3.4:443")
    (fun _ => hA) ⟨by decide, by decide⟩ (fun _ => hN)
  exact ⟨⟨by decide, by decide⟩, by decide, by decide, H.1, H.2.1, H.2.2.1, H.2.2.2⟩

/-- C4 (confirmed): the relay promise resolves `true` only through a
body-end event in a state where neither `errored` nor `aborted` is set
(and that event sets `finished`); a timeout firing while neither
`finished` nor `errored` holds marks `aborted`, destroys the upstream
body and rejects with the timeout error; the timer is armed for 30
seconds after the relay starts; and when the sink's headers were
already sent the call returns `false` without writing to the sink. -/
theorem C4_stream_relay :
    (∀ (s : RelayState) (e : StreamEvent),
        s.settled = none → (streamStep s e).settled = some .resolvedTrue →
        e = .bodyEnd ∧ s.errored = false ∧ s.aborted = false ∧
        (streamStep s e).finished = true ∧ (streamStep s e).errored = false ∧
        (streamStep s e).aborted = false) ∧
    (∀ s : RelayState, s.timeoutActive = true → s.finished = false → s.errored = false →
        s.settled = none →
        (streamStep s .timeoutFire).aborted = true ∧
        (streamStep s .timeoutFire).bodyDestroyed = true ∧
        (streamStep s .timeoutFire).settled = some .rejectedTimeout) ∧
    (∀ startTime : Nat, (initRelayState startTime).timeoutAt = startTime + streamTimeoutMs) ∧
    (∀ (startTime : Nat) (events : List StreamEvent),
        robustStreamResponse true startTime events = (.setupFailedReturn, false)) := by
  refine ⟨?_, ?_, fun _ => rfl, fun _ _ => rfl⟩
  · intro s e hnone hres
    cases e <;>
      simp only [streamStep, settleWith] at hres ⊢ <;>
      split_ifs at hres ⊢ <;>
      simp_all
  · intro s hact hfin herr hnone
    simp only [streamStep, settleWith]
    simp [hact, hfin, herr, hnone]

/-- C4 witness: concrete relay states exercising the normal end, the
timeout and the headers-already-sent paths. -/
theorem C4_witness :
    ((initRelayState 0).settled = none ∧
      (streamStep (initRelayState 0) .bodyEnd).settled = some .resolvedTrue ∧
      (StreamEvent.bodyEnd = .bodyEnd ∧ (initRelayState 0).errored = false ∧
        (initRelayState 0).aborted = false ∧
        (streamStep (initRelayState 0) .bodyEnd).finished = true ∧
        (streamStep (initRelayState 0) .bodyEnd).errored = false ∧
        (streamStep (initRelayState 0) .bodyEnd).aborted = false)) ∧
    ((initRelayState 0).timeoutActive = true ∧
      (streamStep (initRelayState 0) .timeoutFire).aborted = true ∧
      (streamStep (initRelayState 0) .timeoutFire).bodyDestroyed = true ∧
      (streamStep (initRelayState 0) .timeoutFire).settled = some .rejectedTimeout) ∧
    (initRelayState 5).timeoutAt = 5 + streamTimeoutMs ∧
    robustStreamResponse true 5 [.bodyData] = (.setupFailedReturn, false) := by
  refine ⟨⟨rfl, by decide, ?_⟩, ⟨rfl, ?_⟩, C4_stream_relay.2.2.1 5,
    C4_stream_relay.2.2.2 5 [.bodyData]⟩
  · exact C4_stream_relay.1 (initRelayState 0) .bodyEnd rfl (by decide)
  · exact C4_stream_relay.2.1 (initRelayState 0) rfl rfl rfl rfl

/-- invariant holds initially. -/
theorem cbInv_init (ft rt mp now : Nat) : CBInv (mkCircuitBreaker ft rt mp now) := by
  constructor
  · simp only [mkCircuitBreaker]
    split <;> omega
  · simp [mkCircuitBreaker]

/-- invariant preserved by execute. -/
theorem cbInv_exec (cb : CircuitBreaker) (now nowEnd : Nat) (b : Bool) (h : CBInv cb) :
    CBInv ((cb.execute now nowEnd b).cb) := by
  obtain ⟨h1, h2⟩ := h
  unfold CBInv CircuitBreaker.execute cbProceed
  cases hst : cb.state <;> cases b <;>
    simp [hst] <;> (try split_ifs) <;> simp_all <;> try omega

/-- invariant preserved by reset. -/
theorem cbInv_reset (cb : CircuitBreaker) (now : Nat) (h : CBInv cb) :
    CBInv (cb.reset now) := by
  obtain ⟨h1, _⟩ := h
  constructor
  · simpa [CircuitBreaker.reset] using h1
  · simp [CircuitBreaker.reset]

/-- every reachable breaker satisfies the invariant. -/
theorem cbInv_reachable {cb : CircuitBreaker} (h : CBReachable cb) : CBInv cb := by
  induction h with
  | init ft rt mp now => exact cbInv_init ft rt mp now
  | exec now nowEnd b _ ih => exact cbInv_exec _ now nowEnd b ih
  | reset now _ ih => exact cbInv_reset _ now ih

/-- `cbProceed` always invokes the operation exactly once. -/
theorem cbProceed_opInvocations (cb : CircuitBreaker) (nowEnd : Nat) (b : Bool) :
    (cbProceed cb nowEnd b).opInvocations = 1 := by
  cases b <;> simp only [cbProceed] <;> (try split_ifs) <;> simp_all

/-- `cbProceed` invokes the operation in the state it was given. -/
theorem cbProceed_invokedInState (cb : CircuitBreaker) (nowEnd : Nat) (b : Bool) :
    (cbProceed cb nowEnd b).invokedInState = some cb.state := by
  cases b <;> simp only [cbProceed] <;> (try split_ifs) <;> simp_all

/-- C1 (amended): while OPEN, a call with `now - lastFailureAt ≤
resetTimeout` (in particular the claim's `<` case) throws the
distinguished breaker-open error carrying `ceil(remaining/1000)`
seconds, never invokes the operation and leaves the state OPEN with
unchanged failure bookkeeping; only when strictly more than
`resetTimeout` has elapsed does the next call first transition to
HALF_OPEN and then invoke the operation. -/
theorem C1_breaker_open_gate (cb : CircuitBreaker) (now nowEnd t : Nat) (opSucceeds : Bool)
    (hOpen : cb.state = .Open) (hlf : cb.lastFailureTime = some t) :
    (now - t ≤ cb.resetTimeout →
      (cb.execute now nowEnd opSucceeds).result =
        .breakerOpen ((cb.resetTimeout - (now - t) + 999) / 1000) ∧
      (cb.execute now nowEnd opSucceeds).opInvocations = 0 ∧
      (cb.execute now nowEnd opSucceeds).cb.state = .Open ∧
      (cb.execute now nowEnd opSucceeds).cb.failures = cb.failures ∧
      (cb.execute now nowEnd opSucceeds).cb.lastFailureTime = some t) ∧
    (cb.resetTimeout < now - t →
      (cb.execute now nowEnd opSucceeds).opInvocations = 1 ∧
      (cb.execute now nowEnd opSucceeds).invokedInState = some .HalfOpen) := by
  constructor
  · intro h
    simp [CircuitBreaker.execute, hOpen, hlf, Nat.not_lt.mpr h]
  · intro h
    simp [CircuitBreaker.execute, hOpen, hlf, h, cbProceed_opInvocations,
      cbProceed_invokedInState]

/-- C5 (amended): in CLOSED, every failed `execute` increments the
failure counter and records `lastFailureAt`, and the state moves to
OPEN exactly when the incremented counter reaches the threshold; but a
successful `execute` in CLOSED leaves the failure counter unchanged
(it is not reset to 0 as the claim states). -/
theorem C5_closed_state (cb : CircuitBreaker) (now nowEnd : Nat) (hC : cb.state = .Closed) :
    ((cb.execute now nowEnd false).cb.failures = cb.failures + 1 ∧
      (cb.execute now nowEnd false).cb.lastFailureTime = some nowEnd ∧
      ((cb.execute now nowEnd false).cb.state = .Open ↔
        cb.failureThreshold ≤ cb.failures + 1)) ∧
    ((cb.execute now nowEnd true).cb.failures = cb.failures ∧
      (cb.execute now nowEnd true).cb.state = .Closed) := by
  unfold CircuitBreaker.execute cbProceed
  simp [hC]
  split_ifs with h
  · simp [h]
  · simp [h]

/-- C5 counterexample: after one failure and then one success in
CLOSED the failure counter is 1, not the 0 the claim requires. -/
theorem C5_counterexample :
    (((mkCircuitBreaker 3 30000 10000 0).execute 0 0 false).cb.execute 0 5
        true).cb.state = .Closed ∧
    (((mkCircuitBreaker 3 30000 10000 0).execute 0 0 false).cb.execute 0 5
        true).cb.failures = 1 ∧
    ¬(((mkCircuitBreaker 3 30000 10000 0).execute 0 0 false).cb.execute 0 5
        true).cb.failures = 0 := by decide

/-- C5 witness: a concrete CLOSED breaker exercising both halves of
the amended CLOSED-state bookkeeping theorem. -/
theorem C5_closed_state_witness :
    (mkCircuitBreaker 3 30000 10000 0).state = .Closed ∧
    ((mkCircuitBreaker 3 30000 10000 0).execute 0 7 false).cb.failures =
      (mkCircuitBreaker 3 30000 10000 0).failures + 1 ∧
    ((mkCircuitBreaker 3 30000 10000 0).execute 0 7 false).cb.lastFailureTime = some 7 ∧
    ((mkCircuitBreaker 3 30000 10000 0).execute 0 7 true).cb.failures =
      (mkCircuitBreaker 3 30000 10000 0).failures := by
  have H := C5_closed_state (mkCircuitBreaker 3 30000 10000 0) 0 7 (by decide)
  exact ⟨by decide, H.1.1, H.1.2.1, H.2.1⟩

/-- C7 (amended): in any reachable HALF_OPEN state one failed
`execute` transitions back to OPEN, refreshes `lastFailureAt` and
increments the open-transition counter; from OPEN with the timeout
elapsed, two consecutive successful `execute` calls (the first of
which performs the OPEN to HALF_OPEN transition) reach CLOSED with the
failure counter reset to 0 — but the success counter is left at 2, not
reset as the claim states. -/
theorem C7_half_open_behaviour (cb : CircuitBreaker) (now1 ne1 now2 ne2 : Nat)
    (hr : CBReachable cb) :
    (cb.state = .HalfOpen →
      (cb.execute now1 ne1 false).cb.state = .Open ∧
      (cb.execute now1 ne1 false).cb.lastFailureTime = some ne1 ∧
      (cb.execute now1 ne1 false).cb.stats.circuitOpenCount = cb.stats.circuitOpenCount + 1) ∧
    (∀ t : Nat, cb.state = .Open → cb.lastFailureTime = some t →
      cb.resetTimeout < now1 - t →
      ((cb.execute now1 ne1 true).cb.state = .HalfOpen ∧
       (cb.execute now1 ne1 true).cb.successCount = 1 ∧
       ((cb.execute now1 ne1 true).cb.execute now2 ne2 true).cb.state = .Closed ∧
       ((cb.execute now1 ne1 true).cb.execute now2 ne2 true).cb.failures = 0 ∧
       ((cb.execute now1 ne1 true).cb.execute now2 ne2 true).cb.successCount = 2)) := by
  constructor
  · intro hHO
    have hf := (cbInv_reachable hr).2 (Or.inr hHO)
    unfold CircuitBreaker.execute cbProceed
    simp [hHO]
    split_ifs with h
    · simp
    · exact absurd (by omega) h
  · intro t hO hlf helapsed
    unfold CircuitBreaker.execute cbProceed
    simp [hO, hlf, helapsed]

/-- C7 counterexample: after recovery (two consecutive successes) the
state is CLOSED and failures are 0, but `successCount = 2`,
contradicting the claim that recovery resets the success counter. -/
theorem C7_counterexample :
    ((((mkCircuitBreaker 1 30000 10000 0).execute 0 0 false).cb.execute 40000 40000
        true).cb.execute 50000 50000 true).cb.state = .Closed ∧
    ((((mkCircuitBreaker 1 30000 10000 0).execute 0 0 false).cb.execute 40000 40000
        true).cb.execute 50000 50000 true).cb.failures = 0 ∧
    ((((mkCircuitBreaker 1 30000 10000 0).execute 0 0 false).cb.execute 40000 40000
        true).cb.execute 50000 50000 true).cb.successCount = 2 ∧
    ¬((((mkCircuitBreaker 1 30000 10000 0).execute 0 0 false).cb.execute 40000 40000
        true).cb.execute 50000 50000 true).cb.successCount = 0 := by decide

/-- C7 witness: a reachable HALF_OPEN breaker driven back to OPEN by
one failure, and an OPEN breaker driven to CLOSED by two successes. -/
theorem C7_witness :
    (((((mkCircuitBreaker 1 30000 10000 0).execute 0 0 false).cb.execute 40000 40000
        true).cb.state = .HalfOpen) ∧
      ((((mkCircuitBreaker 1 30000 10000 0).execute 0 0 false).cb.execute 40000 40000
        true).cb.execute 50000 50000 false).cb.state = .Open ∧
      ((((mkCircuitBreaker 1 30000 10000 0).execute 0 0 false).cb.execute 40000 40000
        true).cb.execute 50000 50000 false).cb.lastFailureTime = some 50000) ∧
    (((mkCircuitBreaker 1 30000 10000 0).execute 0 0 false).cb.state = .Open ∧
      ((mkCircuitBreaker 1 30000 10000 0).execute 0 0 false).cb.lastFailureTime = some 0 ∧
      ((mkCircuitBreaker 1 30000 10000 0).execute 0 0 false).cb.resetTimeout < 40000 - 0 ∧
      ((((mkCircuitBreaker 1 30000 10000 0).execute 0 0 false).cb.execute 40000 40000
        true).cb.execute 50000 50000 true).cb.state = .Closed ∧
      ((((mkCircuitBreaker 1 30000 10000 0).execute 0 0 false).cb.execute 40000 40000
        true).cb.execute 50000 50000 true).cb.successCount = 2) := by
  have hr1 : CBReachable ((mkCircuitBreaker 1 30000 10000 0).execute 0 0 false).cb :=
    .exec 0 0 false (.init 1 30000 10000 0)
  have hr2 : CBReachable (((mkCircuitBreaker 1 30000 10000 0).execute 0 0
      false).cb.execute 40000 40000 true).cb :=
    .exec 40000 40000 true hr1
  have H1 := (C7_half_open_behaviour _ 50000 50000 0 0 hr2).1 (by decide)
  have H2 := (C7_half_open_behaviour _ 40000 40000 50000 50000 hr1).2 0 (by decide) (by decide)
    (by decide)
  exact ⟨⟨by decide, H1.1, H1.2.1⟩, by decide, by decide, by decide, H2.2.2.1, H2.2.2.2.2⟩

/-- C1 counterexample: with `resetTimeout = 30000` and
`lastFailureAt = 0`, the call at `now = 30000` — exactly `resetTimeout`
elapsed — still short-circuits (operation not invoked, state stays
OPEN), contradicting the claim that once the resetTimeout has elapsed
the next call transitions to HALF_OPEN and invokes the operation. -/
theorem C1_counterexample :
    ((((mkCircuitBreaker 3 30000 10000 0).execute 0 0 false).cb.execute 0 0
        false).cb.execute 0 0 false).cb.state = .Open ∧
    ((((mkCircuitBreaker 3 30000 10000 0).execute 0 0 false).cb.execute 0 0
        false).cb.execute 0 0 false).cb.lastFailureTime = some 0 ∧
    ((((mkCircuitBreaker 3 30000 10000 0).execute 0 0 false).cb.execute 0 0
        false).cb.execute 0 0 false).cb.resetTimeout = 30000 ∧
    (((((mkCircuitBreaker 3 30000 10000 0).execute 0 0 false).cb.execute 0 0
        false).cb.execute 0 0 false).cb.execute 30000 30000 true).opInvocations = 0 ∧
    ¬(((((mkCircuitBreaker 3 30000 10000 0).execute 0 0 false).cb.execute 0 0
        false).cb.execute 0 0 false).cb.execute 30000 30000 true).invokedInState =
      some .HalfOpen ∧
    (((((mkCircuitBreaker 3 30000 10000 0).execute 0 0 false).cb.execute 0 0
        false).cb.execute 0 0 false).cb.execute 30000 30000 true).cb.state = .Open ∧
    (((((mkCircuitBreaker 3 30000 10000 0).execute 0 0 false).cb.execute 0 0
        false).cb.execute 0 0 false).cb.execute 30000 30000 true).result =
      .breakerOpen 0 := by decide

/-- C1 witness: a tripped breaker short-circuits at 20 s with a 10 s
remaining estimate, and probes (HALF_OPEN, operation invoked) at 40 s. -/
theorem C1_witness :
    (((((mkCircuitBreaker 3 30000 10000 0).execute 0 0 false).cb.execute 0 0
        false).cb.execute 0 0 false).cb.state = .Open ∧
      ((((mkCircuitBreaker 3 30000 10000 0).execute 0 0 false).cb.execute 0 0
        false).cb.execute 0 0 false).cb.lastFailureTime = some 0 ∧
      20000 - 0 ≤ ((((mkCircuitBreaker 3 30000 10000 0).execute 0 0 false).cb.execute 0 0
        false).cb.execute 0 0 false).cb.resetTimeout ∧
      (((((mkCircuitBreaker 3 30000 10000 0).execute 0 0 false).cb.execute 0 0
        false).cb.execute 0 0 false).cb.execute 20000 20000 true).result =
        .breakerOpen 10 ∧
      (((((mkCircuitBreaker 3 30000 10000 0).execute 0 0 false).cb.execute 0 0
        false).cb.execute 0 0 false).cb.execute 20000 20000 true).opInvocations = 0) ∧
    (((((mkCircuitBreaker 3 30000 10000 0).execute 0 0 false).cb.execute 0 0
        false).cb.execute 0 0 false).cb.resetTimeout < 40000 - 0 ∧
      (((((mkCircuitBreaker 3 30000 10000 0).execute 0 0 false).cb.execute 0 0
        false).cb.execute 0 0 false).cb.execute 40000 40000 true).opInvocations = 1 ∧
      (((((mkCircuitBreaker 3 30000 10000 0).execute 0 0 false).cb.execute 0 0
        false).cb.execute 0 0 false).cb.execute 40000 40000 true).invokedInState =
        some .HalfOpen) := by
  have H1 := (C1_breaker_open_gate
    ((((mkCircuitBreaker 3 30000 10000 0).execute 0 0 false).cb.execute 0 0
        false).cb.execute 0 0 false).cb 20000 20000 0 true (by decide) (by decide)).1
    (by decide)
  have H2 := (C1_breaker_open_gate
    ((((mkCircuitBreaker 3 30000 10000 0).execute 0 0 false).cb.execute 0 0
        false).cb.execute 0 0 false).cb 40000 40000 0 true (by decide) (by decide)).2
    (by decide)
  exact ⟨⟨by decide, by decide, by decide, H1.1, H1.2.1⟩, by decide, H2.1, H2.2⟩

/-- helper: short-circuit behaviour of `execute` in OPEN within the timeout. -/
theorem exec_open_blocked (cb : CircuitBreaker) (now nowEnd t : Nat) (b : Bool)
    (hO : cb.state = .Open) (hlf : cb.lastFailureTime = some t)
    (h : now - t ≤ cb.resetTimeout) :
    (cb.execute now nowEnd b).result =
      .breakerOpen ((cb.resetTimeout - (now - t) + 999) / 1000) ∧
    (cb.execute now nowEnd b).opInvocations = 0 ∧
    (cb.execute now nowEnd b).cb.state = .Open ∧
    (cb.execute now nowEnd b).cb.failures = cb.failures ∧
    (cb.execute now nowEnd b).cb.lastFailureTime = some t := by
  simp [CircuitBreaker.execute, hO, hlf, Nat.not_lt.mpr h]

/-- helper: `execute` outside OPEN invokes the operation once. -/
theorem exec_not_open_invocations (cb : CircuitBreaker) (now nowEnd : Nat) (b : Bool)
    (h : ¬cb.state = .Open) : (cb.execute now nowEnd b).opInvocations = 1 := by
  simp [CircuitBreaker.execute, h, cbProceed_opInvocations]

/-- helper: failure bookkeeping of `execute` in CLOSED. -/
theorem exec_closed_fail (cb : CircuitBreaker) (now nowEnd : Nat) (hC : cb.state = .Closed) :
    (cb.execute now nowEnd false).cb.failures = cb.failures + 1 ∧
    (cb.execute now nowEnd false).cb.stats.totalFailures = cb.stats.totalFailures + 1 := by
  unfold CircuitBreaker.execute cbProceed
  simp [hC]
  split_ifs with h
  · simp
  · simp

/-- helper: success bookkeeping of `execute` in CLOSED. -/
theorem exec_closed_ok (cb : CircuitBreaker) (now nowEnd : Nat) (hC : cb.state = .Closed) :
    (cb.execute now nowEnd true).cb.failures = cb.failures ∧
    (cb.execute now nowEnd true).cb.state = .Closed := by
  unfold CircuitBreaker.execute cbProceed
  simp [hC]

/-- C6 (amended): the TTS handler wraps the ENTIRE retry loop in one
`execute` call, so with a CLOSED breaker the operation is invoked
exactly once, all attempts of the loop run inside that single
invocation, and a failed logical request adds exactly one failure to
the breaker regardless of the number of attempts; when the breaker is
OPEN within the timeout, the whole loop is skipped (0 attempts). -/
theorem C6_breaker_wraps_whole_call (cb : CircuitBreaker) (now nowEnd : Nat)
    (enabled : Bool) (outcomes : Nat → AttemptOutcome) :
    (cb.state = .Closed →
      (robustTtsCall cb now nowEnd enabled outcomes).1.opInvocations = 1 ∧
      (robustTtsCall cb now nowEnd enabled outcomes).2 =
        (callElevenLabsAPIModel enabled outcomes).attempts ∧
      ((callElevenLabsAPIModel enabled outcomes).ok = false →
        (robustTtsCall cb now nowEnd enabled outcomes).1.cb.failures = cb.failures + 1 ∧
        (robustTtsCall cb now nowEnd enabled outcomes).1.cb.stats.totalFailures =
          cb.stats.totalFailures + 1) ∧
      ((callElevenLabsAPIModel enabled outcomes).ok = true →
        (robustTtsCall cb now nowEnd enabled outcomes).1.cb.failures = cb.failures)) ∧
    (∀ t : Nat, cb.state = .Open → cb.lastFailureTime = some t →
      now - t ≤ cb.resetTimeout →
      (robustTtsCall cb now nowEnd enabled outcomes).1.opInvocations = 0 ∧
      (robustTtsCall cb now nowEnd enabled outcomes).2 = 0) := by
  constructor
  · intro hC
    have hnotOpen : ¬cb.state = .Open := by simp [hC]
    have hinv := exec_not_open_invocations cb now nowEnd
      (callElevenLabsAPIModel enabled outcomes).ok hnotOpen
    refine ⟨hinv, ?_, ?_, ?_⟩
    · simp [robustTtsCall, hinv]
    · intro hok
      have := exec_closed_fail cb now nowEnd hC
      simpa [robustTtsCall, hok] using this
    · intro hok
      have := exec_closed_ok cb now nowEnd hC
      simpa [robustTtsCall, hok] using this.1
  · intro t hO hlf hle
    have := exec_open_blocked cb now nowEnd t (callElevenLabsAPIModel enabled outcomes).ok
      hO hlf hle
    refine ⟨this.2.1, ?_⟩
    simp [robustTtsCall, this.2.1]

/-- C6 counterexample: a logical request whose two attempts both fail
with HTTP 429 leaves the breaker with 1 recorded failure, not 2 —
individual attempts do not separately update the breaker, contradicting
the claim that each attempt is wrapped by `execute`. -/
theorem C6_counterexample :
    (robustTtsCall (mkCircuitBreaker 3 30000 10000 0) 1000 2000 true
      (fun _ => .err "HTTP_ERROR_429: quota_exceeded")).2 = 2 ∧
    (robustTtsCall (mkCircuitBreaker 3 30000 10000 0) 1000 2000 true
      (fun _ => .err "HTTP_ERROR_429: quota_exceeded")).1.cb.failures = 1 ∧
    ¬(robustTtsCall (mkCircuitBreaker 3 30000 10000 0) 1000 2000 true
        (fun _ => .err "HTTP_ERROR_429: quota_exceeded")).1.cb.failures =
      (robustTtsCall (mkCircuitBreaker 3 30000 10000 0) 1000 2000 true
        (fun _ => .err "HTTP_ERROR_429: quota_exceeded")).2 := by decide

/-- C6 witness: the closed-breaker and open-breaker halves of the
amended wrapping theorem at concrete inputs. -/
theorem C6_witness :
    ((mkCircuitBreaker 3 30000 10000 0).state = .Closed ∧
      (robustTtsCall (mkCircuitBreaker 3 30000 10000 0) 1000 2000 true
        (fun _ => .err "HTTP_ERROR_429: quota_exceeded")).1.opInvocations = 1 ∧
      (callElevenLabsAPIModel true (fun _ => .err "HTTP_ERROR_429: quota_exceeded")).ok =
        false ∧
      (robustTtsCall (mkCircuitBreaker 3 30000 10000 0) 1000 2000 true
        (fun _ => .err "HTTP_ERROR_429: quota_exceeded")).1.cb.failures =
        (mkCircuitBreaker 3 30000 10000 0).failures + 1) ∧
    (((((mkCircuitBreaker 3 30000 10000 0).execute 0 0 false).cb.execute 0 0
        false).cb.execute 0 0 false).cb.state = .Open ∧
      (robustTtsCall ((((mkCircuitBreaker 3 30000 10000 0).execute 0 0 false).cb.execute 0 0
        false).cb.execute 0 0 false).cb 1000 2000 true
        (fun _ => .err "HTTP_ERROR_429: quota_exceeded")).1.opInvocations = 0 ∧
      (robustTtsCall ((((mkCircuitBreaker 3 30000 10000 0).execute 0 0 false).cb.execute 0 0
        false).cb.execute 0 0 false).cb 1000 2000 true
        (fun _ => .err "HTTP_ERROR_429: quota_exceeded")).2 = 0) := by
  have H1 := (C6_breaker_wraps_whole_call (mkCircuitBreaker 3 30000 10000 0) 1000 2000 true
    (fun _ => .err "HTTP_ERROR_429: quota_exceeded")).1 (by decide)
  have H2 := (C6_breaker_wraps_whole_call
    ((((mkCircuitBreaker 3 30000 10000 0).execute 0 0 false).cb.execute 0 0
      false).cb.execute 0 0 false).cb 1000 2000 true
    (fun _ => .err "HTTP_ERROR_429: quota_exceeded")).2 0 (by decide) (by decide) (by decide)
  exact ⟨⟨by decide, H1.1, by decide, H1.2.2.1 (by decide) |>.1⟩, ⟨by decide, H2.1, H2.2⟩⟩

/-- helper: deleting the same element twice from a JS `Set` is the
same as deleting it once. -/
theorem setDelete_setDelete (s : List String) (x : String) :
    setDelete (setDelete s x) x = setDelete s x := by
  simp [setDelete, List.filter_filter]

/-- C8 (amended): `finishRequest` is a no-op when no record exists
for the voice key; when one exists it removes the request id from the
set, removes the per-key record exactly when the set becomes empty,
and the per-key map is idempotent under a repeated call — but it
decrements the aggregate `stats.activeRequests` unconditionally, so
repeated release is NOT idempotent on the aggregate statistics
(contrary to the claim) whenever the key still has other requests. -/
theorem C8_finish_request (cm : ConcurrencyManager) (voiceId requestId : String) :
    (mapGet cm.activeRequests voiceId = none → cm.finishRequest voiceId requestId = cm) ∧
    (∀ s : List String, mapGet cm.activeRequests voiceId = some s →
      (cm.finishRequest voiceId requestId).activeRequests =
        (if (setDelete s requestId).length = 0 then mapDelete cm.activeRequests voiceId
          else mapSet cm.activeRequests voiceId (setDelete s requestId)) ∧
      (mapGet (cm.finishRequest voiceId requestId).activeRequests voiceId = none ↔
        setDelete s requestId = []) ∧
      (cm.finishRequest voiceId requestId).stats.activeRequests =
        cm.stats.activeRequests - 1) ∧
    ((cm.finishRequest voiceId requestId).finishRequest voiceId requestId).activeRequests =
      (cm.finishRequest voiceId requestId).activeRequests := by
  refine ⟨?_, ?_, ?_⟩
  · intro h
    simp [ConcurrencyManager.finishRequest, h]
  · intro s h
    refine ⟨?_, ?_, ?_⟩
    · simp [ConcurrencyManager.finishRequest, h]
    · simp only [ConcurrencyManager.finishRequest, h]
      by_cases hz : (setDelete s requestId).length = 0
      · simp [hz, mapGet_mapDelete_same, List.length_eq_zero.mp hz]
      · simp only [if_neg hz, mapGet_mapSet_same]
        simp only [List.length_eq_zero] at hz
        simp [hz]
    · simp [ConcurrencyManager.finishRequest, h]
  · cases hg : mapGet cm.activeRequests voiceId with
    | none => simp [ConcurrencyManager.finishRequest, hg]
    | some s =>
      by_cases hz : (setDelete s requestId).length = 0
      · simp [ConcurrencyManager.finishRequest, hg, hz, mapGet_mapDelete_same]
      · simp [ConcurrencyManager.finishRequest, hg, hz, mapGet_mapSet_same,
          setDelete_setDelete, mapSet_mapSet_same]

/-- C8 counterexample: with `voiceA` holding in-flight requests `r1`
and `r2`, releasing `r1` twice leaves the per-key map unchanged but
drives `stats.activeRequests` from 1 down to 0, so the second release
is not a no-op as the claim states. -/
theorem C8_counterexample :
    ((((mkConcurrencyManager 3 true).startRequest "voiceA" "r1").startRequest "voiceA"
        "r2").finishRequest "voiceA" "r1").stats.activeRequests = 1 ∧
    (((((mkConcurrencyManager 3 true).startRequest "voiceA" "r1").startRequest "voiceA"
        "r2").finishRequest "voiceA" "r1").finishRequest "voiceA"
        "r1").stats.activeRequests = 0 ∧
    (((((mkConcurrencyManager 3 true).startRequest "voiceA" "r1").startRequest "voiceA"
        "r2").finishRequest "voiceA" "r1").finishRequest "voiceA" "r1").activeRequests =
      ((((mkConcurrencyManager 3 true).startRequest "voiceA" "r1").startRequest "voiceA"
        "r2").finishRequest "voiceA" "r1").activeRequests ∧
    ¬(((((mkConcurrencyManager 3 true).startRequest "voiceA" "r1").startRequest "voiceA"
          "r2").finishRequest "voiceA" "r1").finishRequest "voiceA" "r1" =
        (((mkConcurrencyManager 3 true).startRequest "voiceA" "r1").startRequest "voiceA"
          "r2").finishRequest "voiceA" "r1") := by decide

/-- C8 witness: the absent-key no-op and the present-key bookkeeping
of the amended release theorem at concrete inputs. -/
theorem C8_witness :
    (mapGet (mkConcurrencyManager 3 true).activeRequests "voiceA" = none ∧
      (mkConcurrencyManager 3 true).finishRequest "voiceA" "r9" =
        mkConcurrencyManager 3 true) ∧
    (mapGet ((((mkConcurrencyManager 3 true).startRequest "voiceA" "r1").startRequest
        "voiceA" "r2").activeRequests) "voiceA" = some ["r1", "r2"] ∧
      ((((mkConcurrencyManager 3 true).startRequest "voiceA" "r1").startRequest "voiceA"
        "r2").finishRequest "voiceA" "r1").stats.activeRequests =
        (((mkConcurrencyManager 3 true).startRequest "voiceA" "r1").startRequest "voiceA"
          "r2").stats.activeRequests - 1 ∧
      (mapGet (((((mkConcurrencyManager 3 true).startRequest "voiceA" "r1").startRequest
          "voiceA" "r2").finishRequest "voiceA" "r1").activeRequests) "voiceA" = none ↔
        setDelete ["r1", "r2"] "r1" = [])) := by
  refine ⟨⟨by decide, ?_⟩, by decide, ?_, ?_⟩
  · exact (C8_finish_request (mkConcurrencyManager 3 true) "voiceA" "r9").1 (by decide)
  · exact ((C8_finish_request (((mkConcurrencyManager 3 true).startRequest "voiceA"
      "r1").startRequest "voiceA" "r2") "voiceA" "r1").2.1 ["r1", "r2"] (by decide)).2.2
  · exact ((C8_finish_request (((mkConcurrencyManager 3 true).startRequest "voiceA"
      "r1").startRequest "voiceA" "r2") "voiceA" "r1").2.1 ["r1", "r2"] (by decide)).2.1

/-- helper: after a session lookup, the entry stored under the session
id carries exactly the returned profile. -/
theorem getProfile_stored (sessions : Sessions) (sid : String) (now : Nat)
    (r : Fin BROWSER_PROFILES.length) (sess : SessionEntry)
    (h : mapGet (getBrowserProfileForSession sessions sid now r).2 sid = some sess) :
    sess.profile = (getBrowserProfileForSession sessions sid now r).1 := by
  unfold getBrowserProfileForSession at h ⊢
  cases hg : mapGet sessions sid with
  | none =>
    simp only [hg] at h ⊢
    rw [mapGet_mapSet_same] at h
    cases h
    rfl
  | some session =>
    simp only [hg] at h ⊢
    by_cases hfresh : now - session.startTime < sessionDuration
    · simp only [if_pos hfresh] at h ⊢
      rw [hg] at h
      cases h
      rfl
    · simp only [if_neg hfresh] at h ⊢
      rw [mapGet_mapSet_same] at h
      cases h
      rfl

/-- C10 (confirmed): `generateSessionId` is the voice id, an
underscore and the first 8 hex characters of the MD5 of the body's
first 100 characters, so two bodies agreeing on their first 100
characters yield the same session key; and a second
`callElevenLabsAPI`-style lookup with the other body, done while the
stored session is still fresh, returns the same identity. -/
theorem C10_session_key_first100 (v b1 b2 : String) (sessions : Sessions)
    (now1 now2 : Nat) (r1 r2 : Fin BROWSER_PROFILES.length) (sess : SessionEntry)
    (h100 : b1.take 100 = b2.take 100)
    (hget : mapGet (getBrowserProfileForSession sessions (generateSessionId v b1) now1 r1).2
        (generateSessionId v b2) = some sess)
    (hfresh : now2 - sess.startTime < sessionDuration) :
    generateSessionId v b2 = generateSessionId v b1 ∧
    generateSessionId v b1 = v ++ "_" ++ (md5Hex (b1.take 100)).take 8 ∧
    (getBrowserProfileForSession
        (getBrowserProfileForSession sessions (generateSessionId v b1) now1 r1).2
        (generateSessionId v b2) now2 r2).1 =
      (getBrowserProfileForSession sessions (generateSessionId v b1) now1 r1).1 := by
  have hkey : generateSessionId v b2 = generateSessionId v b1 := by
    simp [generateSessionId, h100]
  refine ⟨hkey, rfl, ?_⟩
  rw [hkey] at hget ⊢
  have hprof := getProfile_stored sessions (generateSessionId v b1) now1 r1 sess hget
  have hlookup : ∀ m : Sessions, mapGet m (generateSessionId v b1) = some sess →
      (getBrowserProfileForSession m (generateSessionId v b1) now2 r2).1 = sess.profile := by
    intro m hm
    simp [getBrowserProfileForSession, hm, hfresh]
  rw [hlookup _ hget, hprof]

set_option maxRecDepth 10000 in
/-- C10 witness: two 101-character bodies differing only in their
final character produce the same session key and reuse the same stored
profile. -/
theorem C10_witness :
    ("aaaaaaaaaaaaaaaaaaaaaaaaaaaaaaaaaaaaaaaaaaaaaaaaaaaaaaaaaaaaaaaaaaaaaaaaaaaaaaaaaaaaaaaaaaaaaaaaaaaaX".take 100 = "aaaaaaaaaaaaaaaaaaaaaaaaaaaaaaaaaaaaaaaaaaaaaaaaaaaaaaaaaaaaaaaaaaaaaaaaaaaaaaaaaaaaaaaaaaaaaaaaaaaaY".take 100 ∧
      mapGet (getBrowserProfileForSession [] (generateSessionId "voiceA" "aaaaaaaaaaaaaaaaaaaaaaaaaaaaaaaaaaaaaaaaaaaaaaaaaaaaaaaaaaaaaaaaaaaaaaaaaaaaaaaaaaaaaaaaaaaaaaaaaaaaX") 0
          ⟨0, by decide⟩).2 (generateSessionId "voiceA" "aaaaaaaaaaaaaaaaaaaaaaaaaaaaaaaaaaaaaaaaaaaaaaaaaaaaaaaaaaaaaaaaaaaaaaaaaaaaaaaaaaaaaaaaaaaaaaaaaaaaY") =
        some ⟨⟨"chrome_125_windows", "Chrome 125 on Windows 11"⟩, 0, 0⟩ ∧
      1000 - (0 : Nat) < sessionDuration) ∧
    generateSessionId "voiceA" "aaaaaaaaaaaaaaaaaaaaaaaaaaaaaaaaaaaaaaaaaaaaaaaaaaaaaaaaaaaaaaaaaaaaaaaaaaaaaaaaaaaaaaaaaaaaaaaaaaaaY" = generateSessionId "voiceA" "aaaaaaaaaaaaaaaaaaaaaaaaaaaaaaaaaaaaaaaaaaaaaaaaaaaaaaaaaaaaaaaaaaaaaaaaaaaaaaaaaaaaaaaaaaaaaaaaaaaaX" ∧
    (getBrowserProfileForSession
        (getBrowserProfileForSession [] (generateSessionId "voiceA" "aaaaaaaaaaaaaaaaaaaaaaaaaaaaaaaaaaaaaaaaaaaaaaaaaaaaaaaaaaaaaaaaaaaaaaaaaaaaaaaaaaaaaaaaaaaaaaaaaaaaX") 0
          ⟨0, by decide⟩).2
        (generateSessionId "voiceA" "aaaaaaaaaaaaaaaaaaaaaaaaaaaaaaaaaaaaaaaaaaaaaaaaaaaaaaaaaaaaaaaaaaaaaaaaaaaaaaaaaaaaaaaaaaaaaaaaaaaaY") 1000 ⟨3, by decide⟩).1 =
      (getBrowserProfileForSession [] (generateSessionId "voiceA" "aaaaaaaaaaaaaaaaaaaaaaaaaaaaaaaaaaaaaaaaaaaaaaaaaaaaaaaaaaaaaaaaaaaaaaaaaaaaaaaaaaaaaaaaaaaaaaaaaaaaX") 0
        ⟨0, by decide⟩).1 := by
  have h100r : ("aaaaaaaaaaaaaaaaaaaaaaaaaaaaaaaaaaaaaaaaaaaaaaaaaaaaaaaaaaaaaaaaaaaaaaaaaaaaaaaaaaaaaaaaaaaaaaaaaaaaY" : String).take 100 = "aaaaaaaaaaaaaaaaaaaaaaaaaaaaaaaaaaaaaaaaaaaaaaaaaaaaaaaaaaaaaaaaaaaaaaaaaaaaaaaaaaaaaaaaaaaaaaaaaaaaX".take 100 := by decide
  have hkey : generateSessionId "voiceA" "aaaaaaaaaaaaaaaaaaaaaaaaaaaaaaaaaaaaaaaaaaaaaaaaaaaaaaaaaaaaaaaaaaaaaaaaaaaaaaaaaaaaaaaaaaaaaaaaaaaaY" = generateSessionId "voiceA" "aaaaaaaaaaaaaaaaaaaaaaaaaaaaaaaaaaaaaaaaaaaaaaaaaaaaaaaaaaaaaaaaaaaaaaaaaaaaaaaaaaaaaaaaaaaaaaaaaaaaX" := by
    unfold generateSessionId
    rw [h100r]
  have hget : mapGet (getBrowserProfileForSession [] (generateSessionId "voiceA" "aaaaaaaaaaaaaaaaaaaaaaaaaaaaaaaaaaaaaaaaaaaaaaaaaaaaaaaaaaaaaaaaaaaaaaaaaaaaaaaaaaaaaaaaaaaaaaaaaaaaX") 0
      ⟨0, by decide⟩).2 (generateSessionId "voiceA" "aaaaaaaaaaaaaaaaaaaaaaaaaaaaaaaaaaaaaaaaaaaaaaaaaaaaaaaaaaaaaaaaaaaaaaaaaaaaaaaaaaaaaaaaaaaaaaaaaaaaY") =
      some ⟨⟨"chrome_125_windows", "Chrome 125 on Windows 11"⟩, 0, 0⟩ := by
    rw [hkey]
    exact mapGet_mapSet_same ([] : Sessions) (generateSessionId "voiceA" "aaaaaaaaaaaaaaaaaaaaaaaaaaaaaaaaaaaaaaaaaaaaaaaaaaaaaaaaaaaaaaaaaaaaaaaaaaaaaaaaaaaaaaaaaaaaaaaaaaaaX")
      (⟨⟨"chrome_125_windows", "Chrome 125 on Windows 11"⟩, 0, 0⟩ : SessionEntry)
  have H := C10_session_key_first100 "voiceA" "aaaaaaaaaaaaaaaaaaaaaaaaaaaaaaaaaaaaaaaaaaaaaaaaaaaaaaaaaaaaaaaaaaaaaaaaaaaaaaaaaaaaaaaaaaaaaaaaaaaaX" "aaaaaaaaaaaaaaaaaaaaaaaaaaaaaaaaaaaaaaaaaaaaaaaaaaaaaaaaaaaaaaaaaaaaaaaaaaaaaaaaaaaaaaaaaaaaaaaaaaaaY" [] 0 1000
    ⟨0, by decide⟩ ⟨3, by decide⟩ ⟨⟨"chrome_125_windows", "Chrome 125 on Windows 11"⟩, 0, 0⟩
    (by decide) hget (by decide)
  exact ⟨⟨by decide, hget, by decide⟩, H.1, H.2.2⟩
